import Mathlib

/-!
Shallow embedding of the two report-generating scripts in this repository,
`ec2ebs.py` (class `AWSMetricsCollector`) and `ec2_ebs.py` (the flat script),
together with a small model of the pandas operations they use.

Modelling conventions:
* Numeric cell values are rationals (`ℚ`); the scripts' arithmetic
  (sums, means, division by the period) is exact on the inputs the claims use.
* A pandas cell that may be `NaN` is an `Option ℚ` (`none` = `NaN`); `fillna(0)`
  is `Option.getD 0`.
* A CloudWatch call for one resource is a function
  `String → Except String (List ℚ)`: the list holds the `Maximum` values of the
  returned datapoints (timestamps do not enter any computation),
  `Except.error` is a raised client exception.
* `groupby(key).Maximum.agg([...])` is modelled by `aggBy`: one aggregate row
  per distinct key of the input rows.  (pandas sorts the group keys; the order
  of the aggregate table is irrelevant here because it is only ever used as the
  right side of a key-based left merge.)
* A raised Python exception is `Except.error` with a fixed descriptive string.
-/

instance {ε α : Type} [DecidableEq ε] [DecidableEq α] : DecidableEq (Except ε α) := fun x y =>
  match x, y with
  | .ok u, .ok v => if h : u = v then .isTrue (by rw [h]) else .isFalse (by simp [h])
  | .error u, .error v => if h : u = v then .isTrue (by rw [h]) else .isFalse (by simp [h])
  | .ok _, .error _ => .isFalse (by simp)
  | .error _, .ok _ => .isFalse (by simp)

/-- The `Maximum` column of a metric query result: one rational per datapoint. -/
def okD : Except String (List ℚ) → List ℚ
  | .ok d => d
  | .error _ => []

/-- Whether an `Except` result is a success. -/
def exIsOk {α : Type} : Except String α → Bool
  | .ok _ => true
  | .error _ => false

/-- The rows of a successful table computation, `[]` on a raised exception. -/
def exOkRows {α : Type} : Except String (List α) → List α
  | .ok r => r
  | .error _ => []

/-- First-match association lookup, the semantics of a key-based merge against
a table whose keys are distinct. -/
def lookupQ {α : Type} (k : String) : List (String × α) → Option α
  | [] => none
  | (k', v) :: t => if k' = k then some v else lookupQ k t

/-- All values carried by rows tagged with key `k`, in row order: the group of
`k` formed by `groupby`. -/
def valsQ {α : Type} (k : String) (rows : List (String × α)) : List α :=
  rows.filterMap (fun r => if r.1 = k then some r.2 else none)

/-- The `groupby(key).Maximum.agg(...)` table: one row per distinct key, in
first-appearance order, each carrying `f` of the key's group. -/
def aggBy {α : Type} (f : List ℚ → α) (rows : List (String × ℚ)) :
    List (String × α) :=
  ((rows.map Prod.fst).dedup).map (fun k => (k, f (valsQ k rows)))

/-- The `max` aggregate of a (nonempty, in every reachable use) group. -/
def listMax : List ℚ → ℚ
  | [] => 0
  | x :: xs => xs.foldl max x

/-- The `mean` aggregate of a group. -/
def listMean (l : List ℚ) : ℚ := l.sum / (l.length : ℚ)

/-- Sample variance (`ddof = 1`).  pandas' `std` aggregate is its square root,
which is irrational in general; no claim constrains the value of the `std`
column, and the model's cell is `NaN`/zero exactly when the source's is, so the
variance stands in for the standard deviation. -/
def sampleVar (l : List ℚ) : ℚ :=
  (l.map (fun x => (x - listMean l) ^ 2)).sum / ((l.length : ℚ) - 1)

/-- Aggregate row of `groupby("InstanceId").Maximum.agg(["mean","std","max","count"])`.
`stdP` is `none` for a single-datapoint group, where pandas yields `NaN`. -/
structure CpuAgg where
  mean : ℚ
  stdP : Option ℚ
  maxv : ℚ
  count : ℕ
deriving DecidableEq, Inhabited

/-- Build the CPU aggregate of one group. -/
def mkCpuAgg (l : List ℚ) : CpuAgg :=
  { mean := listMean l
    stdP := if l.length ≤ 1 then none else some (sampleVar l)
    maxv := listMax l
    count := l.length }

/-- Aggregate row of `groupby("VolumeId").Maximum.agg(["mean","max","count"])`. -/
structure IopsAgg where
  mean : ℚ
  maxv : ℚ
  count : ℕ
deriving DecidableEq, Inhabited

/-- Build the IOPS aggregate of one group. -/
def mkIopsAgg (l : List ℚ) : IopsAgg :=
  { mean := listMean l, maxv := listMax l, count := l.length }

/-- The aggregate columns of one EC2 report row after `fillna(0)`. -/
structure CpuAggF where
  meanCPU : ℚ
  stdCPU : ℚ
  maxCPU : ℚ
  countCPU : ℚ
deriving DecidableEq, Inhabited

/-- Left-merge + `fillna(0)` of the CPU aggregate columns of one row. -/
def fillCPU : Option CpuAgg → CpuAggF
  | none => { meanCPU := 0, stdCPU := 0, maxCPU := 0, countCPU := 0 }
  | some a =>
    { meanCPU := a.mean, stdCPU := a.stdP.getD 0, maxCPU := a.maxv
      countCPU := (a.count : ℚ) }

/-- `df['Maximum'] = df['Maximum'] / 3600`: period-total to per-second rate. -/
def rateRows (rows : List (String × ℚ)) : List (String × ℚ) :=
  rows.map (fun p => (p.1, p.2 / 3600))

/-- An EC2 instance inventory row, after selection of the seven report columns
and `fillna('')` (an absent address field holds `""`). -/
structure InstanceRec where
  imageId : String
  instanceId : String
  instanceType : String
  privateDnsName : String
  privateIpAddress : String
  publicDnsName : String
  publicIpAddress : String
deriving DecidableEq, Inhabited

/-- One entry of a volume's `Attachments` list.  `instanceId` holds `""` where
the provider omitted the key (`ec2ebs.py` reads it with `.get('InstanceId', '')`). -/
structure AttachmentRec where
  instanceId : String
  volumeId : String
deriving DecidableEq, Inhabited

/-- An EBS volume inventory row after `fillna(0)` (absent numeric fields hold 0). -/
structure VolumeRec where
  availabilityZone : String
  createTime : String
  encrypted : Bool
  size : ℚ
  volumeId : String
  iops : ℚ
  volumeType : String
  throughput : ℚ
  attachments : List AttachmentRec
deriving DecidableEq, Inhabited

/-- One row of the intermediate EBS frame (`df_result` / `df_v3`) after the two
merges, the IOPS sums, `fillna(0)` and the attachment pass. -/
structure EBSRow where
  vol : VolumeRec
  meanReadIOPS : ℚ
  maxReadIOPS : ℚ
  countReadIOPS : ℚ
  meanWriteIOPS : ℚ
  maxWriteIOPS : ℚ
  countWriteIOPS : ℚ
  meanIOPS : ℚ
  maxIOPS : ℚ
  instanceId : String
deriving DecidableEq, Inhabited

/-- One row of the final EBS report (the eleven selected columns). -/
structure EBSFinal where
  availabilityZone : String
  createTime : String
  encrypted : Bool
  size : ℚ
  volumeId : String
  iops : ℚ
  volumeType : String
  throughput : ℚ
  meanIOPS : ℚ
  maxIOPS : ℚ
  instanceId : String
deriving DecidableEq, Inhabited

/-- The final-column selection applied to one intermediate EBS row. -/
def ebsFinalOf (r : EBSRow) : EBSFinal :=
  { availabilityZone := r.vol.availabilityZone
    createTime := r.vol.createTime
    encrypted := r.vol.encrypted
    size := r.vol.size
    volumeId := r.vol.volumeId
    iops := r.vol.iops
    volumeType := r.vol.volumeType
    throughput := r.vol.throughput
    meanIOPS := r.meanIOPS
    maxIOPS := r.maxIOPS
    instanceId := r.instanceId }

/-- First attachment's instance id, `""` for an unattached volume. -/
def headInstId : List AttachmentRec → String
  | [] => ""
  | a :: _ => a.instanceId

/-- Log records emitted through `logging` by either script. -/
inductive LogEntry where
  | errorInventoryEC2 (msg : String)
  | errorInventoryEBS (msg : String)
  | infoNoInstances
  | errorMetric (dim val msg : String)
  | infoRetrievingEC2
  | infoEC2Done
  | infoRetrievingEBS
  | infoEBSDone
  | errorReports (msg : String)
deriving DecidableEq, Inhabited

/-- The rows accumulated across the per-resource metric loop: for each id in
order, the datapoints of a successful query tagged with the id; a failed or
empty query contributes no rows. -/
def gcmRows (fetch : String → Except String (List ℚ)) : List String → List (String × ℚ)
  | [] => []
  | v :: rest =>
    (match fetch v with
     | .ok dps => dps.map (fun q => (v, q))
     | .error _ => []) ++ gcmRows fetch rest

namespace ec2ebs

/-!
Embedding of `src/ec2ebs.py` (`AWSMetricsCollector`).  External inputs are the
`describe_instances` / `describe_volumes` responses and the per-resource
CloudWatch fetch functions.
-/

/-- The result type of `process_ec2_metrics`: the early `pd.DataFrame()` return
for an empty inventory, the `return df_ec2` fallback when no metric rows came
back (the report then has no aggregate columns), or the merged, zero-filled
table. -/
inductive EC2Out where
  | empty
  | invOnly (rows : List InstanceRec)
  | merged (rows : List (InstanceRec × CpuAggF))
deriving DecidableEq, Inhabited

/-- Whether the EC2 result carries the aggregate columns. -/
def EC2Out.isMerged : EC2Out → Bool
  | .merged _ => true
  | _ => false

/-- The rows of a merged EC2 result, `[]` otherwise. -/
def EC2Out.mrows : EC2Out → List (InstanceRec × CpuAggF)
  | .merged r => r
  | _ => []

/-- The inventory rows of an inventory-only EC2 result, `[]` otherwise. -/
def EC2Out.invRows : EC2Out → List InstanceRec
  | .invOnly r => r
  | _ => []

/-- `get_ec2_instances`: flatten the reservations, log-and-return-empty when no
instance exists, log-and-re-raise a client fault.  (The column selection and
`fillna('')` of the source are absorbed into `InstanceRec`.) -/
def get_ec2_instances (resp : Except String (List (List InstanceRec))) :
    Except String (List InstanceRec) × List LogEntry :=
  match resp with
  | .error e => (.error e, [.errorInventoryEC2 e])
  | .ok rs =>
    let instances := rs.flatten
    if instances = [] then (.ok [], [.infoNoInstances]) else (.ok instances, [])

/-- `get_ebs_volumes`: the volume list with `fillna(0)` absorbed into
`VolumeRec`; a client fault is logged and re-raised; no emptiness check. -/
def get_ebs_volumes (resp : Except String (List VolumeRec)) :
    Except String (List VolumeRec) × List LogEntry :=
  match resp with
  | .error e => (.error e, [.errorInventoryEBS e])
  | .ok vs => (.ok vs, [])

/-- `get_cloudwatch_metrics`: one query per dimension value; a nonempty
`Datapoints` list is appended tagged with the value; a per-value fault is
logged and that value is skipped; the loop always completes. -/
def get_cloudwatch_metrics (dim : String) (fetch : String → Except String (List ℚ))
    (ids : List String) : List (String × ℚ) × List LogEntry :=
  match ids with
  | [] => ([], [])
  | v :: rest =>
    let tail := get_cloudwatch_metrics dim fetch rest
    match fetch v with
    | .ok dps => (dps.map (fun q => (v, q)) ++ tail.1, tail.2)
    | .error e => (tail.1, .errorMetric dim v e :: tail.2)

/-- `process_ec2_metrics`: empty inventory short-circuit, metric fetch,
aggregate, left merge keyed on `InstanceId`, `fillna(0)`; when no metric row
exists the inventory frame is returned unchanged. -/
def process_ec2_metrics (fetch : String → Except String (List ℚ))
    (df_ec2 : List InstanceRec) : EC2Out × List LogEntry :=
  if df_ec2 = [] then (.empty, [])
  else
    let res := get_cloudwatch_metrics "InstanceId" fetch (df_ec2.map (·.instanceId))
    if res.1 = [] then (.invOnly df_ec2, res.2)
    else
      let df_agg := aggBy mkCpuAgg res.1
      (.merged (df_ec2.map (fun i => (i, fillCPU (lookupQ i.instanceId df_agg)))), res.2)

/-- One row of `df_result` in `process_ebs_metrics`: the two merges keyed on
`VolumeId` and `fillna(0)` happen first, then `MaxIOPS`/`MeanIOPS` are the sums
of the already-zero-filled columns, and `InstanceId` is the first attachment's
instance id (or `''`). -/
def mkEbsRow (df_read df_write : List (String × IopsAgg)) (v : VolumeRec) : EBSRow :=
  let r := lookupQ v.volumeId df_read
  let w := lookupQ v.volumeId df_write
  let meanR := (r.map (·.mean)).getD 0
  let maxR := (r.map (·.maxv)).getD 0
  let meanW := (w.map (·.mean)).getD 0
  let maxW := (w.map (·.maxv)).getD 0
  { vol := v
    meanReadIOPS := meanR, maxReadIOPS := maxR
    countReadIOPS := (r.map (fun a => (a.count : ℚ))).getD 0
    meanWriteIOPS := meanW, maxWriteIOPS := maxW
    countWriteIOPS := (w.map (fun a => (a.count : ℚ))).getD 0
    meanIOPS := meanR + meanW, maxIOPS := maxR + maxW
    instanceId := headInstId v.attachments }

/-- The intermediate EBS frame `df_result` of `process_ebs_metrics`: read and
write fetch loops, rate conversion guarded on nonemptiness, the two aggregate
tables (an empty metric frame yields an empty aggregate frame whose merge is
skipped, so the missing `maxReadIOPS`/`maxWriteIOPS` column makes the final
column selection raise `KeyError`), merges, `fillna(0)`, the IOPS sums computed
from the already-filled columns, and the first-attachment instance id. -/
def ebs_df_result (fetchR fetchW : String → Except String (List ℚ))
    (df_volumes : List VolumeRec) : Except String (List EBSRow) × List LogEntry :=
  if df_volumes = [] then (.ok [], [])
  else
    let ids := df_volumes.map (·.volumeId)
    let read_ops := get_cloudwatch_metrics "VolumeId" fetchR ids
    let write_ops := get_cloudwatch_metrics "VolumeId" fetchW ids
    let log := read_ops.2 ++ write_ops.2
    if read_ops.1 = [] ∨ write_ops.1 = [] then
      (.error "KeyError: MeanIOPS", log)
    else
      let df_read := aggBy mkIopsAgg (rateRows read_ops.1)
      let df_write := aggBy mkIopsAgg (rateRows write_ops.1)
      (.ok (df_volumes.map (mkEbsRow df_read df_write)), log)

/-- `process_ebs_metrics`: the final column selection of the intermediate frame. -/
def process_ebs_metrics (fetchR fetchW : String → Except String (List ℚ))
    (df_volumes : List VolumeRec) : Except String (List EBSFinal) × List LogEntry :=
  let res := ebs_df_result fetchR fetchW df_volumes
  (res.1.map (List.map ebsFinalOf), res.2)

/-- `generate_reports`: fetch the instance inventory (skipping report
generation on emptiness), process and "write" the EC2 report, then the same
for volumes; any raised fault is logged as a report-generation error and
re-raised unchanged.  The value is the pair of written report files (`none` =
no file written). -/
def generate_reports (respI : Except String (List (List InstanceRec)))
    (respV : Except String (List VolumeRec))
    (fetchC fetchR fetchW : String → Except String (List ℚ)) :
    Except String (Option EC2Out × Option (List EBSFinal)) × List LogEntry :=
  match get_ec2_instances respI with
  | (.error e, lg) => (.error e, .infoRetrievingEC2 :: lg ++ [.errorReports e])
  | (.ok df_ec2, lg1) =>
    let ec2part : Option EC2Out × List LogEntry :=
      if df_ec2 = [] then (none, [])
      else
        let p := process_ec2_metrics fetchC df_ec2
        (some p.1, p.2 ++ [.infoEC2Done])
    let logA := .infoRetrievingEC2 :: lg1 ++ ec2part.2 ++ [.infoRetrievingEBS]
    match get_ebs_volumes respV with
    | (.error e, lg2) => (.error e, logA ++ lg2 ++ [.errorReports e])
    | (.ok vols, lg2) =>
      if vols = [] then (.ok (ec2part.1, none), logA ++ lg2)
      else
        match process_ebs_metrics fetchR fetchW vols with
        | (.error e, lg3) => (.error e, logA ++ lg2 ++ lg3 ++ [.errorReports e])
        | (.ok tbl, lg3) =>
          (.ok (ec2part.1, some tbl), logA ++ lg2 ++ lg3 ++ [.infoEBSDone])

end ec2ebs

namespace ec2_ebs

/-!
Embedding of `src/ec2_ebs.py` (the flat notebook-style script).  It has no
exception handling of its own: any raised fault propagates and aborts the run,
so every stage is `Except`-valued.
-/

/-- The instance inventory build: flatten the reservations, then select the
seven report columns and `fillna('')`.  The column selection of an empty frame
(no instances at all) raises `KeyError`, since an empty `DataFrame` has no
columns. -/
def build_instances (resp : Except String (List (List InstanceRec))) :
    Except String (List InstanceRec) :=
  match resp with
  | .error e => .error e
  | .ok rs =>
    let instances := rs.flatten
    if instances = [] then .error "KeyError: instance columns" else .ok instances

/-- The `CPUUtilization` fetch loop: one query per instance id, no exception
handling, so the first fault aborts; datapoints are appended tagged with the
id (an empty `Datapoints` list contributes no rows). -/
def collect_cpu (fetch : String → Except String (List ℚ)) :
    List String → Except String (List (String × ℚ))
  | [] => .ok []
  | v :: rest => do
    let dps ← fetch v
    let tail ← collect_cpu fetch rest
    .ok (dps.map (fun q => (v, q)) ++ tail)

/-- The EC2 report table `df_ec2`: the fetch loop, then
`dfutil.groupby("InstanceId").Maximum.agg(...)` — which raises when no query
returned a datapoint, because `dfutil` then has no `Maximum` column — then the
left merge on `InstanceId` and `fillna(0)`. -/
def ec2_table (fetch : String → Except String (List ℚ))
    (instances : List InstanceRec) : Except String (List (InstanceRec × CpuAggF)) := do
  let rows ← collect_cpu fetch (instances.map (·.instanceId))
  if rows = [] then .error "AttributeError: Maximum"
  else
    let df_agg := aggBy mkCpuAgg rows
    .ok (instances.map (fun i => (i, fillCPU (lookupQ i.instanceId df_agg))))

/-- The volume metric fetch loop: for each volume, `VolumeReadOps` then
`VolumeWriteOps`, no exception handling; the two tagged row lists are
accumulated separately. -/
def collect_iops (fetchR fetchW : String → Except String (List ℚ)) :
    List String → Except String (List (String × ℚ) × List (String × ℚ))
  | [] => .ok ([], [])
  | v :: rest => do
    let r ← fetchR v
    let w ← fetchW v
    let tail ← collect_iops fetchR fetchW rest
    .ok (r.map (fun q => (v, q)) ++ tail.1, w.map (fun q => (v, q)) ++ tail.2)

/-- `np.where(df_v3['VolumeId'] == w.volumeId, w.instanceId, col)` applied to
the `InstanceId` column, carried as (volume id, current value) pairs. -/
def updWhere (w : AttachmentRec) (col : List (String × String)) :
    List (String × String) :=
  col.map (fun p => (p.1, if p.1 = w.volumeId then w.instanceId else p.2))

/-- The attachment-extraction loop of `ec2_ebs.py`: the `InstanceId` column
starts as `''` everywhere; for every attachment entry of every volume, in
order, the rows whose `VolumeId` equals the entry's volume id are overwritten
with the entry's instance id. -/
def attachCol (vols : List VolumeRec) : List String :=
  (((vols.flatMap (·.attachments)).foldl (fun c w => updWhere w c)
    (vols.map (fun v => (v.volumeId, "")))).map Prod.snd)

/-- The per-row effect of the attachment loop: starting from `cur`, each
attachment entry in order overwrites the value when its volume id matches. -/
def applyAtts : List AttachmentRec → String → String → String
  | [], _, cur => cur
  | w :: ws, vid, cur => applyAtts ws vid (if vid = w.volumeId then w.instanceId else cur)

/-- One row of `df_v3` in `ec2_ebs.py`: `MaxIOPS`/`MeanIOPS` are computed from
the merged columns **before** `fillna(0)`, so pandas `NaN` propagation makes
them `NaN` — and hence `0` after the fill — unless both merges matched; the
per-aggregate columns are then zero-filled, and `InstanceId` comes from the
attachment pass (`iid`). -/
def mkRowV3 (df_agg_read df_agg_write : List (String × IopsAgg)) (v : VolumeRec)
    (iid : String) : EBSRow :=
  let r := lookupQ v.volumeId df_agg_read
  let w := lookupQ v.volumeId df_agg_write
  { vol := v
    meanReadIOPS := (r.map (·.mean)).getD 0
    maxReadIOPS := (r.map (·.maxv)).getD 0
    countReadIOPS := (r.map (fun a => (a.count : ℚ))).getD 0
    meanWriteIOPS := (w.map (·.mean)).getD 0
    maxWriteIOPS := (w.map (·.maxv)).getD 0
    countWriteIOPS := (w.map (fun a => (a.count : ℚ))).getD 0
    meanIOPS := (match r, w with
      | some a, some b => a.mean + b.mean
      | _, _ => 0)
    maxIOPS := (match r, w with
      | some a, some b => a.maxv + b.maxv
      | _, _ => 0)
    instanceId := iid }

/-- The intermediate EBS frame `df_v3`: volume inventory (an empty one raises
`KeyError` at the loop over the missing `VolumeId` column), the fetch loop,
the unguarded rate conversion (raising when no volume returned a read — or
write — datapoint, since the `Maximum` column is then absent), the two
aggregate tables, the two left merges, the IOPS sums computed **before**
`fillna(0)` (so a row matched on only one side gets `NaN`, then `0`), and the
attachment pass. -/
def ebs_df_v3 (fetchR fetchW : String → Except String (List ℚ))
    (vols : List VolumeRec) : Except String (List EBSRow) :=
  if vols = [] then .error "KeyError: VolumeId"
  else
    match collect_iops fetchR fetchW (vols.map (·.volumeId)) with
    | .error e => .error e
    | .ok ops =>
      if ops.1 = [] then .error "KeyError: Maximum"
      else if ops.2 = [] then .error "KeyError: Maximum"
      else
        let df_agg_read := aggBy mkIopsAgg (rateRows ops.1)
        let df_agg_write := aggBy mkIopsAgg (rateRows ops.2)
        .ok (List.zipWith (mkRowV3 df_agg_read df_agg_write) vols (attachCol vols))

/-- The final EBS report `df_v4`: the eleven-column selection of `df_v3`. -/
def ebs_df_v4 (fetchR fetchW : String → Except String (List ℚ))
    (vols : List VolumeRec) : Except String (List EBSFinal) :=
  (ebs_df_v3 fetchR fetchW vols).map (List.map ebsFinalOf)

end ec2_ebs

/-!
Concrete fixtures: small inventories and fetch functions used to evaluate the
pipelines at explicit inputs.
-/

/-- A concrete instance `i-1`. -/
def wInst1 : InstanceRec :=
  { imageId := "ami-1", instanceId := "i-1", instanceType := "t3.micro"
    privateDnsName := "", privateIpAddress := "", publicDnsName := ""
    publicIpAddress := "" }

/-- A concrete instance `i-2`. -/
def wInst2 : InstanceRec := { wInst1 with instanceId := "i-2" }

/-- CPU fetch: `i-1` has zero datapoints, every other instance has `[10, 20, 30]`. -/
def wFetchCpu : String → Except String (List ℚ) :=
  fun s => if s = "i-1" then .ok [] else .ok [10, 20, 30]

/-- CPU fetch: every query returns zero datapoints. -/
def wFetchEmpty : String → Except String (List ℚ) := fun _ => .ok []

/-- CPU fetch: the query for `i-1` raises, every other returns `[50]`. -/
def wFetchBoom : String → Except String (List ℚ) :=
  fun s => if s = "i-1" then .error "boom" else .ok [50]

/-- A concrete unattached volume `v-0`. -/
def wVol0 : VolumeRec :=
  { availabilityZone := "us-east-1a", createTime := "2024-01-01", encrypted := false
    size := 8, volumeId := "v-0", iops := 100, volumeType := "gp3"
    throughput := 125, attachments := [] }

/-- A concrete volume `v-1` attached to two instances (multi-attach). -/
def wVol1 : VolumeRec :=
  { wVol0 with
      volumeId := "v-1"
      attachments := [{ instanceId := "i-first", volumeId := "v-1" },
                      { instanceId := "i-second", volumeId := "v-1" }] }

/-- A concrete volume `v-1` with a single attachment. -/
def wVolA : VolumeRec :=
  { wVol0 with
      volumeId := "v-1"
      attachments := [{ instanceId := "i-a", volumeId := "v-1" }] }

/-- Volume fetch: `v-1` has zero datapoints, every other volume has `[3600]`. -/
def wFetchR : String → Except String (List ℚ) :=
  fun s => if s = "v-1" then .ok [] else .ok [3600]

/-- Volume fetch: every query returns the single period-total `[3600]`. -/
def wFetchBoth : String → Except String (List ℚ) := fun _ => .ok [3600]

/-- Volume fetch: every query returns the period-totals `[3600, 7200]`. -/
def wFetch2 : String → Except String (List ℚ) := fun _ => .ok [3600, 7200]

/-!
Supporting lemmas: groups and lookups of the modelled pandas operations, and
the shape of the rows accumulated by the metric fetch loops.
-/

theorem valsQ_append {α : Type} (k : String) (l₁ l₂ : List (String × α)) :
    valsQ k (l₁ ++ l₂) = valsQ k l₁ ++ valsQ k l₂ := by
  simp [valsQ, List.filterMap_append]

theorem valsQ_tag {α : Type} (k v : String) (dps : List α) :
    valsQ k (dps.map (fun q => (v, q))) = if v = k then dps else [] := by
  induction dps with
  | nil => simp [valsQ]
  | cons d t ih =>
    simp only [List.map_cons, valsQ, List.filterMap_cons] at ih ⊢
    by_cases h : v = k
    · simp only [h, if_true, if_pos rfl] at ih ⊢
      rw [ih]
    · simp only [h, if_false] at ih ⊢
      rw [ih]

theorem valsQ_map_snd {α β : Type} (k : String) (f : α → β) (rows : List (String × α)) :
    valsQ k (rows.map (fun p => (p.1, f p.2))) = (valsQ k rows).map f := by
  induction rows with
  | nil => simp [valsQ]
  | cons p t ih =>
    simp only [List.map_cons, valsQ, List.filterMap_cons] at ih ⊢
    by_cases h : p.1 = k
    · simp only [h, if_pos rfl] at ih ⊢
      simp [ih]
    · simp only [h, if_false] at ih ⊢
      simp [ih]

theorem valsQ_rateRows (k : String) (rows : List (String × ℚ)) :
    valsQ k (rateRows rows) = (valsQ k rows).map (· / 3600) :=
  valsQ_map_snd k (· / 3600) rows

theorem valsQ_eq_nil_iff {α : Type} (k : String) (rows : List (String × α)) :
    valsQ k rows = [] ↔ k ∉ rows.map Prod.fst := by
  induction rows with
  | nil => simp [valsQ]
  | cons p t ih =>
    simp only [valsQ, List.filterMap_cons, List.map_cons, List.mem_cons] at ih ⊢
    by_cases h : p.1 = k
    · simp [h]
    · simp only [h, if_false]
      rw [ih]
      simp [Ne.symm h]

theorem valsQ_gcmRows_of_not_mem (fetch : String → Except String (List ℚ))
    (k : String) (ids : List String) (h : k ∉ ids) :
    valsQ k (gcmRows fetch ids) = [] := by
  induction ids with
  | nil => rfl
  | cons i t ih =>
    simp only [List.mem_cons, not_or] at h
    cases hf : fetch i with
    | ok d =>
      have hik : i ≠ k := fun he => h.1 he.symm
      simp only [gcmRows, hf, valsQ_append, valsQ_tag, ih h.2]
      simp [hik]
    | error e =>
      simp only [gcmRows, hf, valsQ_append, ih h.2]
      rfl

theorem valsQ_gcmRows_of_empty (fetch : String → Except String (List ℚ))
    (k : String) (ids : List String) (h : okD (fetch k) = []) :
    valsQ k (gcmRows fetch ids) = [] := by
  induction ids with
  | nil => rfl
  | cons i t ih =>
    cases hf : fetch i with
    | ok d =>
      simp only [gcmRows, hf, valsQ_append, valsQ_tag, ih]
      by_cases hik : i = k
      · subst hik
        rw [hf, okD] at h
        simp [h]
      · simp [hik]
    | error e =>
      simp only [gcmRows, hf, valsQ_append, ih]
      rfl

theorem valsQ_gcmRows_of_nodup (fetch : String → Except String (List ℚ))
    (k : String) (ids : List String) (hnd : ids.Nodup) (hmem : k ∈ ids) :
    valsQ k (gcmRows fetch ids) = okD (fetch k) := by
  induction ids with
  | nil => simp at hmem
  | cons i t ih =>
    rw [List.nodup_cons] at hnd
    rcases List.mem_cons.mp hmem with hk | hk
    · subst hk
      cases hf : fetch k with
      | ok d =>
        simp only [gcmRows, hf, valsQ_append, valsQ_tag,
          valsQ_gcmRows_of_not_mem fetch k t hnd.1, okD]
        simp
      | error e =>
        simp only [gcmRows, hf, valsQ_append,
          valsQ_gcmRows_of_not_mem fetch k t hnd.1, okD]
        rfl
    · have hik : i ≠ k := fun h => hnd.1 (h ▸ hk)
      cases hf : fetch i with
      | ok d =>
        simp only [gcmRows, hf, valsQ_append, valsQ_tag, ih hnd.2 hk]
        simp [hik]
      | error e =>
        simp only [gcmRows, hf, valsQ_append, ih hnd.2 hk]
        rfl

theorem lookupQ_map_self {α : Type} (k : String) (l : List String) (g : String → α) :
    lookupQ k (l.map (fun a => (a, g a))) = if k ∈ l then some (g k) else none := by
  induction l with
  | nil => simp [lookupQ]
  | cons a t ih =>
    simp only [List.map_cons, lookupQ]
    by_cases h : a = k
    · subst h; simp
    · simp [h, ih, Ne.symm h]

theorem lookupQ_aggBy_of_nil {α : Type} (f : List ℚ → α) (k : String)
    (rows : List (String × ℚ)) (h : valsQ k rows = []) :
    lookupQ k (aggBy f rows) = none := by
  rw [aggBy, lookupQ_map_self, if_neg]
  rw [List.mem_dedup]
  exact (valsQ_eq_nil_iff k rows).mp h

theorem lookupQ_aggBy_of_ne_nil {α : Type} (f : List ℚ → α) (k : String)
    (rows : List (String × ℚ)) (h : valsQ k rows ≠ []) :
    lookupQ k (aggBy f rows) = some (f (valsQ k rows)) := by
  have hmem : k ∈ rows.map Prod.fst := by
    by_contra hk
    exact h ((valsQ_eq_nil_iff k rows).mpr hk)
  rw [aggBy, lookupQ_map_self, if_pos (List.mem_dedup.mpr hmem)]

theorem exIsOk_eq_ok {α : Type} {x : Except String α} (h : exIsOk x = true) :
    ∃ d, x = .ok d := by
  cases x with
  | ok d => exact ⟨d, rfl⟩
  | error e => simp [exIsOk] at h

theorem okD_of_ok {x : Except String (List ℚ)} {d : List ℚ} (h : x = .ok d) :
    okD x = d := by rw [h, okD]

namespace ec2ebs

theorem gcm_fst (dim : String) (fetch : String → Except String (List ℚ))
    (ids : List String) :
    (get_cloudwatch_metrics dim fetch ids).1 = gcmRows fetch ids := by
  induction ids with
  | nil => rfl
  | cons v t ih =>
    rw [get_cloudwatch_metrics, gcmRows]
    rcases hf : fetch v with d | e <;> simp [hf, ih]

theorem process_ec2_metrics_merged_eq (fetch : String → Except String (List ℚ))
    (df : List InstanceRec) (hdf : df ≠ [])
    (hcpu : gcmRows fetch (df.map (·.instanceId)) ≠ []) :
    (process_ec2_metrics fetch df).1 = .merged (df.map (fun i =>
      (i, fillCPU (lookupQ i.instanceId
        (aggBy mkCpuAgg (gcmRows fetch (df.map (·.instanceId)))))))) := by
  simp [process_ec2_metrics, if_neg hdf, gcm_fst, hcpu]

theorem isMerged_inputs (fetch : String → Except String (List ℚ))
    (df : List InstanceRec)
    (h : (process_ec2_metrics fetch df).1.isMerged = true) :
    df ≠ [] ∧ gcmRows fetch (df.map (·.instanceId)) ≠ [] := by
  by_cases hdf : df = []
  · rw [process_ec2_metrics, if_pos hdf] at h
    simp [EC2Out.isMerged] at h
  · by_cases hcpu : gcmRows fetch (df.map (·.instanceId)) = []
    · simp [process_ec2_metrics, if_neg hdf, gcm_fst, hcpu, EC2Out.isMerged] at h
    · exact ⟨hdf, hcpu⟩

theorem ebs_df_result_ok_eq (fetchR fetchW : String → Except String (List ℚ))
    (vols : List VolumeRec) (hv : vols ≠ [])
    (hr : gcmRows fetchR (vols.map (·.volumeId)) ≠ [])
    (hw : gcmRows fetchW (vols.map (·.volumeId)) ≠ []) :
    (ebs_df_result fetchR fetchW vols).1 = .ok (vols.map (mkEbsRow
      (aggBy mkIopsAgg (rateRows (gcmRows fetchR (vols.map (·.volumeId)))))
      (aggBy mkIopsAgg (rateRows (gcmRows fetchW (vols.map (·.volumeId))))))) := by
  simp [ebs_df_result, if_neg hv, gcm_fst, hr, hw]

theorem exOkRows_ebs_df_result (fetchR fetchW : String → Except String (List ℚ))
    (vols : List VolumeRec) :
    exOkRows (ebs_df_result fetchR fetchW vols).1 = []
    ∨ exOkRows (ebs_df_result fetchR fetchW vols).1 = vols.map (mkEbsRow
        (aggBy mkIopsAgg (rateRows (gcmRows fetchR (vols.map (·.volumeId)))))
        (aggBy mkIopsAgg (rateRows (gcmRows fetchW (vols.map (·.volumeId)))))) := by
  by_cases hv : vols = []
  · left
    simp [ebs_df_result, hv, exOkRows]
  · by_cases hr : gcmRows fetchR (vols.map (·.volumeId)) = []
    · left
      simp [ebs_df_result, if_neg hv, gcm_fst, hr, exOkRows]
    · by_cases hw : gcmRows fetchW (vols.map (·.volumeId)) = []
      · left
        simp [ebs_df_result, if_neg hv, gcm_fst, hr, hw, exOkRows]
      · right
        rw [ebs_df_result_ok_eq fetchR fetchW vols hv hr hw]
        rfl

theorem ebs_df_result_isOk_inputs (fetchR fetchW : String → Except String (List ℚ))
    (vols : List VolumeRec) (hv : vols ≠ [])
    (h : exIsOk (ebs_df_result fetchR fetchW vols).1 = true) :
    gcmRows fetchR (vols.map (·.volumeId)) ≠ []
    ∧ gcmRows fetchW (vols.map (·.volumeId)) ≠ [] := by
  by_cases hr : gcmRows fetchR (vols.map (·.volumeId)) = []
  · simp [ebs_df_result, if_neg hv, gcm_fst, hr, exIsOk] at h
  · by_cases hw : gcmRows fetchW (vols.map (·.volumeId)) = []
    · simp [ebs_df_result, if_neg hv, gcm_fst, hr, hw, exIsOk] at h
    · exact ⟨hr, hw⟩

end ec2ebs

namespace ec2_ebs

theorem collect_cpu_eq_of_ok (fetch : String → Except String (List ℚ))
    (ids : List String) (rows : List (String × ℚ))
    (h : collect_cpu fetch ids = .ok rows) : rows = gcmRows fetch ids := by
  induction ids generalizing rows with
  | nil =>
    rw [collect_cpu] at h
    cases h
    rfl
  | cons v t ih =>
    rw [collect_cpu] at h
    cases hf : fetch v with
    | error e => rw [hf] at h; exact Except.noConfusion h
    | ok d =>
      rw [hf] at h
      cases hc : collect_cpu fetch t with
      | error e => rw [hc] at h; exact Except.noConfusion h
      | ok q =>
        rw [hc] at h
        cases h
        rw [gcmRows, hf, ih q hc]

theorem collect_iops_eq_of_ok (fetchR fetchW : String → Except String (List ℚ))
    (ids : List String) (p : List (String × ℚ) × List (String × ℚ))
    (h : collect_iops fetchR fetchW ids = .ok p) :
    p = (gcmRows fetchR ids, gcmRows fetchW ids) := by
  induction ids generalizing p with
  | nil =>
    rw [collect_iops] at h
    cases h
    rfl
  | cons v t ih =>
    rw [collect_iops] at h
    cases hr : fetchR v with
    | error e => rw [hr] at h; exact Except.noConfusion h
    | ok dr =>
      rw [hr] at h
      cases hw : fetchW v with
      | error e => rw [hw] at h; exact Except.noConfusion h
      | ok dw =>
        rw [hw] at h
        cases hc : collect_iops fetchR fetchW t with
        | error e => rw [hc] at h; exact Except.noConfusion h
        | ok q =>
          rw [hc] at h
          cases h
          rw [gcmRows, gcmRows, hr, hw, ih q hc]

end ec2_ebs

namespace ec2_ebs

theorem collect_cpu_ok (fetch : String → Except String (List ℚ)) (ids : List String)
    (h : ∀ id ∈ ids, exIsOk (fetch id) = true) :
    collect_cpu fetch ids = .ok (gcmRows fetch ids) := by
  induction ids with
  | nil => rfl
  | cons v t ih =>
    obtain ⟨d, hd⟩ := exIsOk_eq_ok (h v (List.mem_cons_self v t))
    rw [collect_cpu, gcmRows, hd, ih (fun i hi => h i (List.mem_cons_of_mem v hi))]
    rfl

theorem foldl_updWhere (atts : List AttachmentRec) (init : List (String × String)) :
    atts.foldl (fun c w => updWhere w c) init
      = init.map (fun p => (p.1, applyAtts atts p.1 p.2)) := by
  induction atts generalizing init with
  | nil => simp [applyAtts]
  | cons w ws ih =>
    rw [List.foldl_cons, updWhere, ih, List.map_map]
    rfl

theorem attachCol_eq (vols : List VolumeRec) :
    attachCol vols
      = vols.map (fun v => applyAtts (vols.flatMap (·.attachments)) v.volumeId "") := by
  rw [attachCol, foldl_updWhere, List.map_map, List.map_map]
  rfl

theorem applyAtts_append (l₁ l₂ : List AttachmentRec) (vid cur : String) :
    applyAtts (l₁ ++ l₂) vid cur = applyAtts l₂ vid (applyAtts l₁ vid cur) := by
  induction l₁ generalizing cur with
  | nil => rfl
  | cons w ws ih => rw [List.cons_append, applyAtts, applyAtts, ih]

theorem applyAtts_of_forall_ne (atts : List AttachmentRec) (vid cur : String)
    (h : ∀ w ∈ atts, w.volumeId ≠ vid) : applyAtts atts vid cur = cur := by
  induction atts generalizing cur with
  | nil => rfl
  | cons w ws ih =>
    rw [applyAtts, if_neg (fun he => h w (List.mem_cons_self w ws) he.symm)]
    exact ih cur (fun u hu => h u (List.mem_cons_of_mem w hu))

theorem applyAtts_flatMap_single (vols : List VolumeRec) (v : VolumeRec)
    (hv : v ∈ vols) (hnd : (vols.map (·.volumeId)).Nodup)
    (hatt : ∀ u ∈ vols, ∀ w ∈ u.attachments, w.volumeId = u.volumeId)
    (hlen : ∀ u ∈ vols, u.attachments.length ≤ 1) :
    applyAtts (vols.flatMap (·.attachments)) v.volumeId "" = headInstId v.attachments := by
  obtain ⟨l₁, l₂, rfl⟩ := List.append_of_mem hv
  have hne₁ : ∀ u ∈ l₁, u.volumeId ≠ v.volumeId := by
    intro u hu
    rw [List.map_append, List.map_cons, List.nodup_append] at hnd
    exact fun he =>
      (hnd.2.2 (List.mem_map_of_mem (·.volumeId) hu)) (he ▸ List.mem_cons_self _ _)
  have hne₂ : ∀ u ∈ l₂, u.volumeId ≠ v.volumeId := by
    intro u hu
    rw [List.map_append, List.map_cons, List.nodup_append] at hnd
    have := (List.nodup_cons.mp hnd.2.1).1
    exact fun he => this (he ▸ List.mem_map_of_mem (·.volumeId) hu)
  have hA : ∀ w ∈ l₁.flatMap (·.attachments), w.volumeId ≠ v.volumeId := by
    intro w hw
    obtain ⟨u, hu, hwu⟩ := List.mem_flatMap.mp hw
    rw [hatt u (by simp [hu]) w hwu]
    exact hne₁ u hu
  have hB : ∀ w ∈ l₂.flatMap (·.attachments), w.volumeId ≠ v.volumeId := by
    intro w hw
    obtain ⟨u, hu, hwu⟩ := List.mem_flatMap.mp hw
    rw [hatt u (by simp [hu]) w hwu]
    exact hne₂ u hu
  rw [List.flatMap_append, List.flatMap_cons, applyAtts_append, applyAtts_append,
    applyAtts_of_forall_ne _ _ _ hA, applyAtts_of_forall_ne _ _ _ hB]
  have hself : ∀ w ∈ v.attachments, w.volumeId = v.volumeId :=
    hatt v (by simp)
  have hl : v.attachments.length ≤ 1 := hlen v (by simp)
  cases hw : v.attachments with
  | nil => rfl
  | cons w ws =>
    cases ws with
    | nil =>
      rw [applyAtts, applyAtts, headInstId,
        if_pos (hself w (by simp [hw]) ).symm]
    | cons w2 ws2 => simp [hw] at hl

theorem zipWith_self_map {α β γ : Type} (f : α → β → γ) (l : List α) (g : α → β) :
    List.zipWith f l (l.map g) = l.map (fun a => f a (g a)) := by
  induction l with
  | nil => rfl
  | cons a t ih => rw [List.map_cons, List.zipWith_cons_cons, ih, List.map_cons]

theorem collect_iops_ok (fetchR fetchW : String → Except String (List ℚ))
    (ids : List String)
    (hR : ∀ id ∈ ids, exIsOk (fetchR id) = true)
    (hW : ∀ id ∈ ids, exIsOk (fetchW id) = true) :
    collect_iops fetchR fetchW ids = .ok (gcmRows fetchR ids, gcmRows fetchW ids) := by
  induction ids with
  | nil => rfl
  | cons v t ih =>
    obtain ⟨dr, hdr⟩ := exIsOk_eq_ok (hR v (List.mem_cons_self v t))
    obtain ⟨dw, hdw⟩ := exIsOk_eq_ok (hW v (List.mem_cons_self v t))
    rw [collect_iops, gcmRows, gcmRows, hdr, hdw,
      ih (fun i hi => hR i (List.mem_cons_of_mem v hi))
         (fun i hi => hW i (List.mem_cons_of_mem v hi))]
    rfl

theorem exOkRows_ebs_df_v3 (fetchR fetchW : String → Except String (List ℚ))
    (vols : List VolumeRec) :
    exOkRows (ebs_df_v3 fetchR fetchW vols) = []
    ∨ exOkRows (ebs_df_v3 fetchR fetchW vols) = vols.map (fun v => mkRowV3
        (aggBy mkIopsAgg (rateRows (gcmRows fetchR (vols.map (·.volumeId)))))
        (aggBy mkIopsAgg (rateRows (gcmRows fetchW (vols.map (·.volumeId)))))
        v (applyAtts (vols.flatMap (·.attachments)) v.volumeId "")) := by
  by_cases hv : vols = []
  · left
    simp [ebs_df_v3, hv, exOkRows]
  · cases hcol : collect_iops fetchR fetchW (vols.map (·.volumeId)) with
    | error e =>
      left
      simp [ebs_df_v3, if_neg hv, hcol, exOkRows]
    | ok p =>
      have hp := collect_iops_eq_of_ok fetchR fetchW _ p hcol
      subst hp
      by_cases h1 : gcmRows fetchR (vols.map (·.volumeId)) = []
      · left
        simp [ebs_df_v3, if_neg hv, hcol, h1, exOkRows]
      · by_cases h2 : gcmRows fetchW (vols.map (·.volumeId)) = []
        · left
          simp [ebs_df_v3, if_neg hv, hcol, h1, h2, exOkRows]
        · right
          simp only [ebs_df_v3, if_neg hv, hcol, h1, h2, if_false, exOkRows,
            attachCol_eq, zipWith_self_map]

end ec2_ebs

/-!
Claim theorems.  Each claim of the specification is settled against the
embedded pipelines; counterexamples evaluate a pipeline at an explicit input.
-/

/-- C1 (amended): whenever at least one resource returned datapoints (the
merge path is taken), the EC2 join is a left join — exactly one output row per
inventory row, in order, and a resource whose metric query returned zero
datapoints gets all aggregate columns zero-filled.  When no resource returned
any datapoints, `ec2ebs.py` instead returns the inventory frame without
aggregate columns (see the counterexample). -/
theorem claim_C1_left_join_amended (fetch : String → Except String (List ℚ))
    (df : List InstanceRec)
    (h : (ec2ebs.process_ec2_metrics fetch df).1.isMerged = true) :
    ((ec2ebs.process_ec2_metrics fetch df).1.mrows).length = df.length
    ∧ ((ec2ebs.process_ec2_metrics fetch df).1.mrows).map Prod.fst = df
    ∧ ∀ p ∈ (ec2ebs.process_ec2_metrics fetch df).1.mrows,
        fetch p.1.instanceId = .ok [] → p.2 = fillCPU none := by
  obtain ⟨hdf, hcpu⟩ := ec2ebs.isMerged_inputs fetch df h
  rw [ec2ebs.process_ec2_metrics_merged_eq fetch df hdf hcpu]
  simp only [ec2ebs.EC2Out.mrows]
  refine ⟨by simp, by rw [List.map_map]; exact List.map_id df, ?_⟩
  intro p hp hfe
  obtain ⟨i, hi, rfl⟩ := List.mem_map.mp hp
  have hfe' : fetch i.instanceId = .ok [] := hfe
  have hvals : valsQ i.instanceId (gcmRows fetch (df.map (·.instanceId))) = [] :=
    valsQ_gcmRows_of_empty fetch i.instanceId _ (by rw [hfe']; rfl)
  show fillCPU (lookupQ i.instanceId _) = fillCPU none
  rw [lookupQ_aggBy_of_nil mkCpuAgg i.instanceId _ hvals]

unseal Rat.mul Rat.inv Rat.add Rat.sub in
/-- Witness for C1: a two-instance inventory where `i-1` has zero datapoints
and `i-2` has three; the merge path is taken and the conclusion holds. -/
theorem claim_C1_witness :
    (ec2ebs.process_ec2_metrics wFetchCpu [wInst1, wInst2]).1.isMerged = true
    ∧ (((ec2ebs.process_ec2_metrics wFetchCpu [wInst1, wInst2]).1.mrows).length
        = [wInst1, wInst2].length
      ∧ ((ec2ebs.process_ec2_metrics wFetchCpu [wInst1, wInst2]).1.mrows).map Prod.fst
        = [wInst1, wInst2]
      ∧ ∀ p ∈ (ec2ebs.process_ec2_metrics wFetchCpu [wInst1, wInst2]).1.mrows,
          wFetchCpu p.1.instanceId = .ok [] → p.2 = fillCPU none) :=
  ⟨by decide, claim_C1_left_join_amended wFetchCpu [wInst1, wInst2] (by decide)⟩

/-- Counterexample to C1 as stated: when every resource returns zero
datapoints, `process_ec2_metrics` returns the inventory frame unchanged
(`invOnly`), so the report has no zero-filled aggregate columns at all. -/
theorem claim_C1_counterexample :
    (ec2ebs.process_ec2_metrics wFetchEmpty [wInst1]).1 = .invOnly [wInst1]
    ∧ (ec2ebs.process_ec2_metrics wFetchEmpty [wInst1]).1.isMerged = false := by
  decide

/-- C2 (amended): in `ec2ebs.py` every row of the intermediate EBS frame
satisfies `MaxIOPS = maxReadIOPS + maxWriteIOPS` and
`MeanIOPS = meanReadIOPS + meanWriteIOPS`, because the sums are computed after
`fillna(0)`.  (In `ec2_ebs.py` the sums are computed before the fill, and the
identity fails for a volume matched by only one aggregate table — see the
counterexample.) -/
theorem claim_C2_iops_sum_amended (fetchR fetchW : String → Except String (List ℚ))
    (vols : List VolumeRec) (r : EBSRow)
    (hr : r ∈ exOkRows (ec2ebs.ebs_df_result fetchR fetchW vols).1) :
    r.maxIOPS = r.maxReadIOPS + r.maxWriteIOPS
    ∧ r.meanIOPS = r.meanReadIOPS + r.meanWriteIOPS := by
  rcases ec2ebs.exOkRows_ebs_df_result fetchR fetchW vols with hE | hE
  · rw [hE] at hr
    simp at hr
  · rw [hE] at hr
    obtain ⟨v, hv, rfl⟩ := List.mem_map.mp hr
    exact ⟨rfl, rfl⟩

unseal Rat.mul Rat.inv Rat.add Rat.sub in
/-- Witness for C2: the first row of the report for a one-volume inventory
with read and write datapoints satisfies both identities. -/
theorem claim_C2_witness :
    ((exOkRows (ec2ebs.ebs_df_result wFetchBoth wFetchBoth [wVol0]).1).headI
      ∈ exOkRows (ec2ebs.ebs_df_result wFetchBoth wFetchBoth [wVol0]).1)
    ∧ ((exOkRows (ec2ebs.ebs_df_result wFetchBoth wFetchBoth [wVol0]).1).headI.maxIOPS
        = (exOkRows (ec2ebs.ebs_df_result wFetchBoth wFetchBoth [wVol0]).1).headI.maxReadIOPS
          + (exOkRows (ec2ebs.ebs_df_result wFetchBoth wFetchBoth [wVol0]).1).headI.maxWriteIOPS
      ∧ (exOkRows (ec2ebs.ebs_df_result wFetchBoth wFetchBoth [wVol0]).1).headI.meanIOPS
        = (exOkRows (ec2ebs.ebs_df_result wFetchBoth wFetchBoth [wVol0]).1).headI.meanReadIOPS
          + (exOkRows (ec2ebs.ebs_df_result wFetchBoth wFetchBoth [wVol0]).1).headI.meanWriteIOPS) :=
  ⟨by decide, claim_C2_iops_sum_amended wFetchBoth wFetchBoth [wVol0] _ (by decide)⟩

unseal Rat.mul Rat.inv Rat.add Rat.sub in
/-- Counterexample to C2 as stated: in `ec2_ebs.py`, with `v-0` having read
and write datapoints but `v-1` having only read datapoints, the `v-1` row gets
`MaxIOPS = MeanIOPS = 0` while `maxReadIOPS + maxWriteIOPS = 1`. -/
theorem claim_C2_counterexample :
    (exOkRows (ec2_ebs.ebs_df_v3 wFetchBoth wFetchR [wVol0, wVol1])).map
        (fun r => (r.vol.volumeId, r.maxIOPS, r.maxReadIOPS + r.maxWriteIOPS))
      = [("v-0", 2, 2), ("v-1", 0, 1)]
    ∧ ¬ (∀ r ∈ exOkRows (ec2_ebs.ebs_df_v3 wFetchBoth wFetchR [wVol0, wVol1]),
          r.maxIOPS = r.maxReadIOPS + r.maxWriteIOPS
          ∧ r.meanIOPS = r.meanReadIOPS + r.meanWriteIOPS)
    ∧ exIsOk (ec2_ebs.ebs_df_v3 wFetchBoth wFetchR [wVol0, wVol1]) = true := by
  decide

/-- C3 (amended): in `ec2ebs.py`, a volume `v` whose read query returned zero
datapoints and whose write query returned the single period-total `[3600]`
yields `meanReadIOPS = 0`, `maxReadIOPS = 0`, `meanWriteIOPS = 1`,
`maxWriteIOPS = 1`, `MeanIOPS = 1` and `MaxIOPS = 1` on its report row.  (In
`ec2_ebs.py` the same scenario yields `MeanIOPS = MaxIOPS = 0` because the
sums are computed before `fillna(0)` — see the counterexample.) -/
theorem claim_C3_zero_read_scenario_amended
    (fetchR fetchW : String → Except String (List ℚ)) (vols : List VolumeRec)
    (v : VolumeRec) (hv : v ∈ vols) (hnd : (vols.map (·.volumeId)).Nodup)
    (hre : fetchR v.volumeId = .ok []) (hwr : fetchW v.volumeId = .ok [3600]) :
    ∀ r ∈ exOkRows (ec2ebs.ebs_df_result fetchR fetchW vols).1, r.vol = v →
      r.meanReadIOPS = 0 ∧ r.maxReadIOPS = 0 ∧ r.meanWriteIOPS = 1
      ∧ r.maxWriteIOPS = 1 ∧ r.meanIOPS = 1 ∧ r.maxIOPS = 1 := by
  intro r hr hrv
  rcases ec2ebs.exOkRows_ebs_df_result fetchR fetchW vols with hE | hE
  · rw [hE] at hr
    simp at hr
  · rw [hE] at hr
    obtain ⟨u, hu, rfl⟩ := List.mem_map.mp hr
    have huv : u = v := hrv
    subst huv
    have hvid : u.volumeId ∈ vols.map (·.volumeId) := List.mem_map_of_mem _ hu
    have hvalsR : valsQ u.volumeId (rateRows (gcmRows fetchR (vols.map (·.volumeId)))) = [] := by
      rw [valsQ_rateRows, valsQ_gcmRows_of_nodup fetchR _ _ hnd hvid, hre]
      rfl
    have hvalsW : valsQ u.volumeId (rateRows (gcmRows fetchW (vols.map (·.volumeId)))) = [1] := by
      rw [valsQ_rateRows, valsQ_gcmRows_of_nodup fetchW _ _ hnd hvid, hwr]
      norm_num [okD]
    have hlr := lookupQ_aggBy_of_nil mkIopsAgg u.volumeId _ hvalsR
    have hlw := lookupQ_aggBy_of_ne_nil mkIopsAgg u.volumeId
      (rateRows (gcmRows fetchW (vols.map (·.volumeId)))) (by rw [hvalsW]; simp)
    rw [hvalsW] at hlw
    simp [ec2ebs.mkEbsRow, hlr, hlw, mkIopsAgg, listMean, listMax]

unseal Rat.mul Rat.inv Rat.add Rat.sub in
/-- Witness for C3: inventory `[v-0, v-1]`, `v-1` with zero read datapoints
and write period-totals `[3600]` (while `v-0` supplies read datapoints); the
`v-1` row has the six claimed values. -/
theorem claim_C3_witness :
    wVol1 ∈ [wVol0, wVol1]
    ∧ (([wVol0, wVol1].map (·.volumeId)).Nodup)
    ∧ wFetchR wVol1.volumeId = .ok []
    ∧ wFetchBoth wVol1.volumeId = .ok [3600]
    ∧ (∀ r ∈ exOkRows (ec2ebs.ebs_df_result wFetchR wFetchBoth [wVol0, wVol1]).1,
        r.vol = wVol1 →
        r.meanReadIOPS = 0 ∧ r.maxReadIOPS = 0 ∧ r.meanWriteIOPS = 1
        ∧ r.maxWriteIOPS = 1 ∧ r.meanIOPS = 1 ∧ r.maxIOPS = 1) :=
  ⟨by decide, by decide, by decide, by decide,
    claim_C3_zero_read_scenario_amended wFetchR wFetchBoth [wVol0, wVol1] wVol1
      (by decide) (by decide) (by decide) (by decide)⟩

unseal Rat.mul Rat.inv Rat.add Rat.sub in
/-- Counterexample to C3 as stated: in `ec2_ebs.py`, the same scenario
(`v-1`: zero read datapoints, write `[3600]`; `v-0` supplies read data) gives
the `v-1` row `MeanIOPS = MaxIOPS = 0`, not `1`. -/
theorem claim_C3_counterexample :
    (exOkRows (ec2_ebs.ebs_df_v3 wFetchR wFetchBoth [wVol0, wVol1])).map
        (fun r => (r.vol.volumeId, r.meanReadIOPS, r.maxReadIOPS))
      = [("v-0", 1, 1), ("v-1", 0, 0)]
    ∧ (exOkRows (ec2_ebs.ebs_df_v3 wFetchR wFetchBoth [wVol0, wVol1])).map
        (fun r => (r.meanWriteIOPS, r.maxWriteIOPS))
      = [(1, 1), (1, 1)]
    ∧ (exOkRows (ec2_ebs.ebs_df_v3 wFetchR wFetchBoth [wVol0, wVol1])).map
        (fun r => (r.meanIOPS, r.maxIOPS))
      = [(2, 2), (0, 0)]
    ∧ (∃ r ∈ exOkRows (ec2_ebs.ebs_df_v3 wFetchR wFetchBoth [wVol0, wVol1]),
          r.vol.volumeId = "v-1" ∧ ¬ (r.meanIOPS = 1 ∧ r.maxIOPS = 1))
    ∧ exIsOk (ec2_ebs.ebs_df_v3 wFetchR wFetchBoth [wVol0, wVol1]) = true := by
  decide

/-- C4 (amended): in `ec2ebs.py` every EBS report row's `InstanceId` is the
first attachment entry's instance id, or `""` when the attachment list is
empty.  (In `ec2_ebs.py` a multi-attach volume instead reports the **last**
attachment's instance id — see the counterexample.) -/
theorem claim_C4_first_attachment_amended
    (fetchR fetchW : String → Except String (List ℚ)) (vols : List VolumeRec)
    (r : EBSRow) (hr : r ∈ exOkRows (ec2ebs.ebs_df_result fetchR fetchW vols).1) :
    r.instanceId = headInstId r.vol.attachments := by
  rcases ec2ebs.exOkRows_ebs_df_result fetchR fetchW vols with hE | hE
  · rw [hE] at hr
    simp at hr
  · rw [hE] at hr
    obtain ⟨v, hv, rfl⟩ := List.mem_map.mp hr
    rfl

unseal Rat.mul Rat.inv Rat.add Rat.sub in
/-- Witness for C4: the row of a two-attachment volume carries the first
attachment's instance id (`i-first`). -/
theorem claim_C4_witness :
    ((exOkRows (ec2ebs.ebs_df_result wFetchBoth wFetchBoth [wVol1]).1).headI
      ∈ exOkRows (ec2ebs.ebs_df_result wFetchBoth wFetchBoth [wVol1]).1)
    ∧ (exOkRows (ec2ebs.ebs_df_result wFetchBoth wFetchBoth [wVol1]).1).headI.instanceId
      = headInstId (exOkRows (ec2ebs.ebs_df_result wFetchBoth wFetchBoth [wVol1]).1).headI.vol.attachments :=
  ⟨by decide, claim_C4_first_attachment_amended wFetchBoth wFetchBoth [wVol1] _ (by decide)⟩

unseal Rat.mul Rat.inv Rat.add Rat.sub in
/-- Counterexample to C4 as stated: in `ec2_ebs.py` the multi-attach volume
`v-1` (attachments `i-first`, `i-second`) reports `i-second`, the last
attachment's instance id, not the first. -/
theorem claim_C4_counterexample :
    (exOkRows (ec2_ebs.ebs_df_v3 wFetchBoth wFetchBoth [wVol1])).map (·.instanceId)
      = ["i-second"]
    ∧ ¬ (∀ r ∈ exOkRows (ec2_ebs.ebs_df_v3 wFetchBoth wFetchBoth [wVol1]),
          r.instanceId = headInstId r.vol.attachments)
    ∧ exIsOk (ec2_ebs.ebs_df_v3 wFetchBoth wFetchBoth [wVol1]) = true := by
  decide

/-- C5 (confirmed): every volume datapoint is divided by the 3600-second
period before aggregation: a volume whose read query returned the
period-totals `[3600, 7200]` contributes the rate group `[1, 2]`, and its
report row (in both scripts) has mean read rate `3/2` counted over `2`
datapoints with maximum `2`. -/
theorem claim_C5_rate_before_aggregation
    (fetchR fetchW : String → Except String (List ℚ)) (vols : List VolumeRec)
    (v : VolumeRec) (hv : v ∈ vols) (hnd : (vols.map (·.volumeId)).Nodup)
    (hre : fetchR v.volumeId = .ok [3600, 7200]) :
    valsQ v.volumeId (rateRows (gcmRows fetchR (vols.map (·.volumeId)))) = [1, 2]
    ∧ (∀ r ∈ exOkRows (ec2ebs.ebs_df_result fetchR fetchW vols).1, r.vol = v →
        r.meanReadIOPS = 3/2 ∧ r.maxReadIOPS = 2 ∧ r.countReadIOPS = 2)
    ∧ (∀ r ∈ exOkRows (ec2_ebs.ebs_df_v3 fetchR fetchW vols), r.vol = v →
        r.meanReadIOPS = 3/2 ∧ r.maxReadIOPS = 2 ∧ r.countReadIOPS = 2) := by
  have hvid : v.volumeId ∈ vols.map (·.volumeId) := List.mem_map_of_mem _ hv
  have hvals : valsQ v.volumeId (rateRows (gcmRows fetchR (vols.map (·.volumeId)))) = [1, 2] := by
    rw [valsQ_rateRows, valsQ_gcmRows_of_nodup fetchR _ _ hnd hvid, hre]
    norm_num [okD]
  have hlr := lookupQ_aggBy_of_ne_nil mkIopsAgg v.volumeId
    (rateRows (gcmRows fetchR (vols.map (·.volumeId)))) (by rw [hvals]; simp)
  rw [hvals] at hlr
  refine ⟨hvals, ?_, ?_⟩
  · intro r hr hrv
    rcases ec2ebs.exOkRows_ebs_df_result fetchR fetchW vols with hE | hE
    · rw [hE] at hr
      simp at hr
    · rw [hE] at hr
      obtain ⟨u, hu, rfl⟩ := List.mem_map.mp hr
      have huv : u = v := hrv
      subst huv
      simp [ec2ebs.mkEbsRow, hlr, mkIopsAgg, listMean, listMax]
      norm_num [max_def]
  · intro r hr hrv
    rcases ec2_ebs.exOkRows_ebs_df_v3 fetchR fetchW vols with hE | hE
    · rw [hE] at hr
      simp at hr
    · rw [hE] at hr
      obtain ⟨u, hu, rfl⟩ := List.mem_map.mp hr
      have huv : u = v := hrv
      subst huv
      simp [ec2_ebs.mkRowV3, hlr, mkIopsAgg, listMean, listMax]
      norm_num [max_def]

unseal Rat.mul Rat.inv Rat.add Rat.sub in
/-- Witness for C5: a single attached volume with read period-totals
`[3600, 7200]`. -/
theorem claim_C5_witness :
    wVolA ∈ [wVolA]
    ∧ (([wVolA].map (·.volumeId)).Nodup)
    ∧ wFetch2 wVolA.volumeId = .ok [3600, 7200]
    ∧ (valsQ wVolA.volumeId (rateRows (gcmRows wFetch2 ([wVolA].map (·.volumeId)))) = [1, 2]
      ∧ (∀ r ∈ exOkRows (ec2ebs.ebs_df_result wFetch2 wFetchBoth [wVolA]).1, r.vol = wVolA →
          r.meanReadIOPS = 3/2 ∧ r.maxReadIOPS = 2 ∧ r.countReadIOPS = 2)
      ∧ (∀ r ∈ exOkRows (ec2_ebs.ebs_df_v3 wFetch2 wFetchBoth [wVolA]), r.vol = wVolA →
          r.meanReadIOPS = 3/2 ∧ r.maxReadIOPS = 2 ∧ r.countReadIOPS = 2)) :=
  ⟨by decide, by decide, by decide,
    claim_C5_rate_before_aggregation wFetch2 wFetchBoth [wVolA] wVolA
      (by decide) (by decide) (by decide)⟩

/-- C6 (amended): in `ec2ebs.py` a fault on a single resource's metric query
is isolated: the accumulated metric rows equal those of the same run with the
failing query replaced by an empty success (only that resource's datapoints
are omitted, all others are fetched), the fault is logged, the loop never
raises, and in a merged report the failed resource's row has all usage fields
zero.  (In `ec2_ebs.py` the fetch loop has no exception handling, so such a
fault aborts the whole run — see the counterexample.) -/
theorem claim_C6_fault_isolation_amended
    (fetch : String → Except String (List ℚ)) (ids : List String)
    (bad e : String) (df : List InstanceRec)
    (hbad : fetch bad = .error e) (hmem : bad ∈ ids) :
    gcmRows fetch ids = gcmRows (fun x => if x = bad then .ok [] else fetch x) ids
    ∧ LogEntry.errorMetric "InstanceId" bad e
        ∈ (ec2ebs.get_cloudwatch_metrics "InstanceId" fetch ids).2
    ∧ ∀ p ∈ (ec2ebs.process_ec2_metrics fetch df).1.mrows,
        p.1.instanceId = bad → p.2 = fillCPU none := by
  refine ⟨?_, ?_, ?_⟩
  · clear hmem
    induction ids with
    | nil => rfl
    | cons i t ih =>
      rw [gcmRows, gcmRows, ih]
      by_cases hib : i = bad
      · subst hib
        rw [hbad]
        simp
      · simp [hib]
  · induction ids with
    | nil => simp at hmem
    | cons i t ih =>
      rw [ec2ebs.get_cloudwatch_metrics]
      rcases List.mem_cons.mp hmem with hk | hk
      · subst hk
        rw [hbad]
        simp
      · cases hf : fetch i with
        | ok d => simp [hf, ih hk]
        | error e2 => simp [hf, ih hk]
  · intro p hp hpe
    by_cases hM : (ec2ebs.process_ec2_metrics fetch df).1.isMerged = true
    · obtain ⟨hdf, hcpu⟩ := ec2ebs.isMerged_inputs fetch df hM
      rw [ec2ebs.process_ec2_metrics_merged_eq fetch df hdf hcpu] at hp
      simp only [ec2ebs.EC2Out.mrows] at hp
      obtain ⟨i, hi, rfl⟩ := List.mem_map.mp hp
      have hpe' : i.instanceId = bad := hpe
      have hvals : valsQ i.instanceId (gcmRows fetch (df.map (·.instanceId))) = [] := by
        rw [hpe']
        exact valsQ_gcmRows_of_empty fetch bad _ (by rw [hbad]; rfl)
      show fillCPU (lookupQ i.instanceId _) = fillCPU none
      rw [lookupQ_aggBy_of_nil mkCpuAgg i.instanceId _ hvals]
    · cases hout : (ec2ebs.process_ec2_metrics fetch df).1 with
      | empty =>
        rw [hout] at hp
        simp [ec2ebs.EC2Out.mrows] at hp
      | invOnly rows =>
        rw [hout] at hp
        simp [ec2ebs.EC2Out.mrows] at hp
      | merged rows =>
        rw [hout] at hM
        simp [ec2ebs.EC2Out.isMerged] at hM

/-- Witness for C6: `i-1`'s query raises `boom` while `i-2` returns `[50]`;
the rows equal the bad-query-replaced run, the fault is logged, and `i-1`'s
merged row is all zero. -/
theorem claim_C6_witness :
    wFetchBoom "i-1" = .error "boom"
    ∧ "i-1" ∈ ["i-1", "i-2"]
    ∧ (gcmRows wFetchBoom ["i-1", "i-2"]
        = gcmRows (fun x => if x = "i-1" then .ok [] else wFetchBoom x) ["i-1", "i-2"]
      ∧ LogEntry.errorMetric "InstanceId" "i-1" "boom"
          ∈ (ec2ebs.get_cloudwatch_metrics "InstanceId" wFetchBoom ["i-1", "i-2"]).2
      ∧ ∀ p ∈ (ec2ebs.process_ec2_metrics wFetchBoom [wInst1, wInst2]).1.mrows,
          p.1.instanceId = "i-1" → p.2 = fillCPU none) :=
  ⟨by decide, by decide,
    claim_C6_fault_isolation_amended wFetchBoom ["i-1", "i-2"] "i-1" "boom"
      [wInst1, wInst2] (by decide) (by decide)⟩

/-- Counterexample to C6 as stated: in `ec2_ebs.py` the same single-resource
fault propagates out of the fetch loop and aborts the run — no report row is
produced for any resource. -/
theorem claim_C6_counterexample :
    ec2_ebs.ec2_table wFetchBoom [wInst1, wInst2] = .error "boom"
    ∧ exIsOk (ec2_ebs.ec2_table wFetchBoom [wInst1, wInst2]) = false := by
  decide

/-- C7 (confirmed): an inventory-fetch fault (`describe_instances` or
`describe_volumes` raising) is logged and re-raised unchanged by
`ec2ebs.py`: `generate_reports` propagates the same error value, having
logged both the inventory error and the report-generation error; no report
value is produced. -/
theorem claim_C7_inventory_fault_fatal (e : String)
    (respV : Except String (List VolumeRec))
    (fC fR fW : String → Except String (List ℚ))
    (rs : List (List InstanceRec)) :
    (ec2ebs.generate_reports (.error e) respV fC fR fW).1 = .error e
    ∧ LogEntry.errorInventoryEC2 e ∈ (ec2ebs.generate_reports (.error e) respV fC fR fW).2
    ∧ LogEntry.errorReports e ∈ (ec2ebs.generate_reports (.error e) respV fC fR fW).2
    ∧ (ec2ebs.generate_reports (.ok rs) (.error e) fC fR fW).1 = .error e
    ∧ LogEntry.errorInventoryEBS e ∈ (ec2ebs.generate_reports (.ok rs) (.error e) fC fR fW).2
    ∧ LogEntry.errorReports e ∈ (ec2ebs.generate_reports (.ok rs) (.error e) fC fR fW).2 := by
  refine ⟨rfl, by simp [ec2ebs.generate_reports, ec2ebs.get_ec2_instances],
    by simp [ec2ebs.generate_reports, ec2ebs.get_ec2_instances], ?_, ?_, ?_⟩
  · by_cases hrs : rs.flatten = [] <;>
      simp [ec2ebs.generate_reports, ec2ebs.get_ec2_instances,
        ec2ebs.get_ebs_volumes, hrs]
  · by_cases hrs : rs.flatten = [] <;>
      simp [ec2ebs.generate_reports, ec2ebs.get_ec2_instances,
        ec2ebs.get_ebs_volumes, hrs]
  · by_cases hrs : rs.flatten = [] <;>
      simp [ec2ebs.generate_reports, ec2ebs.get_ec2_instances,
        ec2ebs.get_ebs_volumes, hrs]

/-- C8 (amended): in `ec2ebs.py` an empty instance inventory produces no EC2
report file, logs the informational no-instances message, and raises no error;
an empty volume inventory likewise produces no EBS report file and no error
(though no emptiness-specific message is logged for volumes).  (In
`ec2_ebs.py` an empty instance inventory instead raises at the column
selection of the empty frame — see the counterexample.) -/
theorem claim_C8_empty_inventory_amended (rs : List (List InstanceRec))
    (fC fR fW : String → Except String (List ℚ)) (h : rs.flatten = []) :
    (ec2ebs.generate_reports (.ok rs) (.ok []) fC fR fW).1 = .ok (none, none)
    ∧ LogEntry.infoNoInstances ∈ (ec2ebs.generate_reports (.ok rs) (.ok []) fC fR fW).2
    ∧ ∀ m, LogEntry.errorReports m ∉ (ec2ebs.generate_reports (.ok rs) (.ok []) fC fR fW).2 := by
  refine ⟨?_, ?_, ?_⟩ <;>
    simp [ec2ebs.generate_reports, ec2ebs.get_ec2_instances, ec2ebs.get_ebs_volumes, h]

/-- Witness for C8: the empty reservation list. -/
theorem claim_C8_witness :
    (([] : List (List InstanceRec)).flatten = [])
    ∧ ((ec2ebs.generate_reports (.ok []) (.ok []) wFetchCpu wFetchBoth wFetchBoth).1
        = .ok (none, none)
      ∧ LogEntry.infoNoInstances
          ∈ (ec2ebs.generate_reports (.ok []) (.ok []) wFetchCpu wFetchBoth wFetchBoth).2
      ∧ ∀ m, LogEntry.errorReports m
          ∉ (ec2ebs.generate_reports (.ok []) (.ok []) wFetchCpu wFetchBoth wFetchBoth).2) :=
  ⟨rfl, claim_C8_empty_inventory_amended [] wFetchCpu wFetchBoth wFetchBoth rfl⟩

/-- Counterexample to C8 as stated: in `ec2_ebs.py` an empty instance
inventory raises (`df[[...]]` on an empty frame is a `KeyError`), so the run
aborts with a fatal error instead of skipping the report. -/
theorem claim_C8_counterexample :
    ec2_ebs.build_instances (.ok ([] : List (List InstanceRec)))
      = .error "KeyError: instance columns"
    ∧ exIsOk (ec2_ebs.build_instances (.ok ([] : List (List InstanceRec)))) = false := by
  decide

/-- Reduction of the `Except` monad bind on a success, used to evaluate the
do-notation of `ec2_ebs.py`'s stages. -/
theorem bind_ok_eq {α β : Type} (a : α) (f : α → Except String β) :
    (Except.ok a : Except String α) >>= f = f a := rfl

/-- C9 (confirmed): whenever an EC2 report is produced (either script), it has
exactly one row per fetched instance, and the rows carry the inventory records
in fetch order. -/
theorem claim_C9_row_count_and_order
    (fetchA fetchB : String → Except String (List ℚ)) (df : List InstanceRec)
    (hA : (ec2ebs.process_ec2_metrics fetchA df).1.isMerged = true)
    (hB : exIsOk (ec2_ebs.ec2_table fetchB df) = true) :
    ((ec2ebs.process_ec2_metrics fetchA df).1.mrows).map Prod.fst = df
    ∧ ((ec2ebs.process_ec2_metrics fetchA df).1.mrows).length = df.length
    ∧ (exOkRows (ec2_ebs.ec2_table fetchB df)).map Prod.fst = df
    ∧ (exOkRows (ec2_ebs.ec2_table fetchB df)).length = df.length := by
  obtain ⟨hdf, hcpu⟩ := ec2ebs.isMerged_inputs fetchA df hA
  rw [ec2ebs.process_ec2_metrics_merged_eq fetchA df hdf hcpu]
  cases hcol : ec2_ebs.collect_cpu fetchB (df.map (·.instanceId)) with
  | error e2 =>
    rw [show ec2_ebs.ec2_table fetchB df = .error e2 by
      unfold ec2_ebs.ec2_table
      rw [hcol]
      rfl] at hB
    simp [exIsOk] at hB
  | ok rows =>
    have hrows := ec2_ebs.collect_cpu_eq_of_ok fetchB _ rows hcol
    subst hrows
    by_cases hnil : gcmRows fetchB (df.map (·.instanceId)) = []
    · rw [show ec2_ebs.ec2_table fetchB df = .error "AttributeError: Maximum" by
        unfold ec2_ebs.ec2_table
        rw [hcol, bind_ok_eq, if_pos hnil]] at hB
      simp [exIsOk] at hB
    · have htab : ec2_ebs.ec2_table fetchB df = .ok (df.map (fun i =>
          (i, fillCPU (lookupQ i.instanceId
            (aggBy mkCpuAgg (gcmRows fetchB (df.map (·.instanceId)))))))) := by
        unfold ec2_ebs.ec2_table
        rw [hcol, bind_ok_eq, if_neg hnil]
      rw [htab]
      simp only [ec2ebs.EC2Out.mrows, exOkRows]
      refine ⟨?_, by simp, ?_, by simp⟩
      · rw [List.map_map]
        exact List.map_id df
      · rw [List.map_map]
        exact List.map_id df

/-- Witness for C9: both scripts merge for a two-instance inventory where
`i-2` has datapoints. -/
theorem claim_C9_witness :
    (ec2ebs.process_ec2_metrics wFetchCpu [wInst1, wInst2]).1.isMerged = true
    ∧ exIsOk (ec2_ebs.ec2_table wFetchCpu [wInst1, wInst2]) = true
    ∧ (((ec2ebs.process_ec2_metrics wFetchCpu [wInst1, wInst2]).1.mrows).map Prod.fst
        = [wInst1, wInst2]
      ∧ ((ec2ebs.process_ec2_metrics wFetchCpu [wInst1, wInst2]).1.mrows).length
        = [wInst1, wInst2].length
      ∧ (exOkRows (ec2_ebs.ec2_table wFetchCpu [wInst1, wInst2])).map Prod.fst
        = [wInst1, wInst2]
      ∧ (exOkRows (ec2_ebs.ec2_table wFetchCpu [wInst1, wInst2])).length
        = [wInst1, wInst2].length) :=
  ⟨by decide, by decide,
    claim_C9_row_count_and_order wFetchCpu wFetchCpu [wInst1, wInst2]
      (by decide) (by decide)⟩

/-- C10 (amended): the two scripts produce identical EC2 and EBS report
tables for the same provider responses, provided every metric query succeeds,
at least one instance has a datapoint, the volume inventory is nonempty with
distinct volume ids, every volume has at least one read and one write
datapoint, and every volume has at most one attachment entry (tagged with its
own volume id).  Outside these conditions the scripts diverge: a multi-attach
volume yields different `InstanceId` columns (see the counterexample), a
partially matched volume yields different `MaxIOPS`/`MeanIOPS` (C2/C3), a
metric fault aborts only `ec2_ebs.py` (C6), and an empty or all-empty
inventory aborts only `ec2_ebs.py` (C1/C8). -/
theorem claim_C10_equivalence_amended
    (insts : List InstanceRec) (vols : List VolumeRec)
    (fC fR fW : String → Except String (List ℚ))
    (hC : ∀ id ∈ insts.map (·.instanceId), exIsOk (fC id) = true)
    (hCne : gcmRows fC (insts.map (·.instanceId)) ≠ [])
    (hR : ∀ v ∈ vols, exIsOk (fR v.volumeId) = true ∧ okD (fR v.volumeId) ≠ [])
    (hW : ∀ v ∈ vols, exIsOk (fW v.volumeId) = true ∧ okD (fW v.volumeId) ≠ [])
    (hvne : vols ≠ []) (hnd : (vols.map (·.volumeId)).Nodup)
    (hatt : ∀ v ∈ vols, (∀ w ∈ v.attachments, w.volumeId = v.volumeId)
              ∧ v.attachments.length ≤ 1) :
    ec2_ebs.ec2_table fC insts = .ok ((ec2ebs.process_ec2_metrics fC insts).1.mrows)
    ∧ (ec2ebs.process_ec2_metrics fC insts).1.isMerged = true
    ∧ ec2_ebs.ebs_df_v4 fR fW vols = (ec2ebs.process_ebs_metrics fR fW vols).1
    ∧ exIsOk (ec2ebs.process_ebs_metrics fR fW vols).1 = true := by
  have hinsts : insts ≠ [] := by
    intro h0
    subst h0
    exact hCne rfl
  have hmergedA := ec2ebs.process_ec2_metrics_merged_eq fC insts hinsts hCne
  have htabB : ec2_ebs.ec2_table fC insts = .ok (insts.map (fun i =>
      (i, fillCPU (lookupQ i.instanceId
        (aggBy mkCpuAgg (gcmRows fC (insts.map (·.instanceId)))))))) := by
    unfold ec2_ebs.ec2_table
    rw [ec2_ebs.collect_cpu_ok fC _ hC, bind_ok_eq, if_neg hCne]
  refine ⟨?_, ?_, ?_, ?_⟩
  · rw [hmergedA]
    exact htabB
  · rw [hmergedA]
    rfl
  · -- the EBS tables
    have hRids : ∀ id ∈ vols.map (·.volumeId), exIsOk (fR id) = true := by
      intro id hid
      obtain ⟨v, hv, rfl⟩ := List.mem_map.mp hid
      exact (hR v hv).1
    have hWids : ∀ id ∈ vols.map (·.volumeId), exIsOk (fW id) = true := by
      intro id hid
      obtain ⟨v, hv, rfl⟩ := List.mem_map.mp hid
      exact (hW v hv).1
    have hcol := ec2_ebs.collect_iops_ok fR fW (vols.map (·.volumeId)) hRids hWids
    obtain ⟨v0, hv0⟩ := List.exists_mem_of_ne_nil vols hvne
    have hvid0 : v0.volumeId ∈ vols.map (·.volumeId) := List.mem_map_of_mem _ hv0
    have hRne : gcmRows fR (vols.map (·.volumeId)) ≠ [] := by
      intro h0
      have hvv := valsQ_gcmRows_of_nodup fR v0.volumeId _ hnd hvid0
      rw [h0] at hvv
      exact (hR v0 hv0).2 (by simpa [valsQ] using hvv.symm)
    have hWne : gcmRows fW (vols.map (·.volumeId)) ≠ [] := by
      intro h0
      have hvv := valsQ_gcmRows_of_nodup fW v0.volumeId _ hnd hvid0
      rw [h0] at hvv
      exact (hW v0 hv0).2 (by simpa [valsQ] using hvv.symm)
    have hresA := ec2ebs.ebs_df_result_ok_eq fR fW vols hvne hRne hWne
    have hv3 : ec2_ebs.ebs_df_v3 fR fW vols = .ok (vols.map (fun v =>
        ec2_ebs.mkRowV3
          (aggBy mkIopsAgg (rateRows (gcmRows fR (vols.map (·.volumeId)))))
          (aggBy mkIopsAgg (rateRows (gcmRows fW (vols.map (·.volumeId)))))
          v (ec2_ebs.applyAtts (vols.flatMap (·.attachments)) v.volumeId ""))) := by
      simp only [ec2_ebs.ebs_df_v3, if_neg hvne, hcol, if_neg hRne, if_neg hWne,
        ec2_ebs.attachCol_eq, ec2_ebs.zipWith_self_map]
    have hrowsEq : vols.map (ec2ebs.mkEbsRow
          (aggBy mkIopsAgg (rateRows (gcmRows fR (vols.map (·.volumeId)))))
          (aggBy mkIopsAgg (rateRows (gcmRows fW (vols.map (·.volumeId))))))
        = vols.map (fun v => ec2_ebs.mkRowV3
          (aggBy mkIopsAgg (rateRows (gcmRows fR (vols.map (·.volumeId)))))
          (aggBy mkIopsAgg (rateRows (gcmRows fW (vols.map (·.volumeId)))))
          v (ec2_ebs.applyAtts (vols.flatMap (·.attachments)) v.volumeId "")) := by
      apply List.map_congr_left
      intro v hv
      have hvid : v.volumeId ∈ vols.map (·.volumeId) := List.mem_map_of_mem _ hv
      have hvalsR : valsQ v.volumeId (rateRows (gcmRows fR (vols.map (·.volumeId))))
          = (okD (fR v.volumeId)).map (· / 3600) := by
        rw [valsQ_rateRows, valsQ_gcmRows_of_nodup fR _ _ hnd hvid]
      have hvalsW : valsQ v.volumeId (rateRows (gcmRows fW (vols.map (·.volumeId))))
          = (okD (fW v.volumeId)).map (· / 3600) := by
        rw [valsQ_rateRows, valsQ_gcmRows_of_nodup fW _ _ hnd hvid]
      have hlr := lookupQ_aggBy_of_ne_nil mkIopsAgg v.volumeId
        (rateRows (gcmRows fR (vols.map (·.volumeId))))
        (by rw [hvalsR]; simpa [List.map_eq_nil_iff] using (hR v hv).2)
      have hlw := lookupQ_aggBy_of_ne_nil mkIopsAgg v.volumeId
        (rateRows (gcmRows fW (vols.map (·.volumeId))))
        (by rw [hvalsW]; simpa [List.map_eq_nil_iff] using (hW v hv).2)
      have hiid := ec2_ebs.applyAtts_flatMap_single vols v hv hnd
        (fun u hu => (hatt u hu).1) (fun u hu => (hatt u hu).2)
      simp [ec2ebs.mkEbsRow, ec2_ebs.mkRowV3, hlr, hlw, hiid]
    rw [ec2_ebs.ebs_df_v4, hv3, ec2ebs.process_ebs_metrics, hresA, ← hrowsEq]
  · rw [ec2ebs.process_ebs_metrics,
      ec2ebs.ebs_df_result_ok_eq fR fW vols hvne ?_ ?_]
    · rfl
    · obtain ⟨v0, hv0⟩ := List.exists_mem_of_ne_nil vols hvne
      have hvid0 : v0.volumeId ∈ vols.map (·.volumeId) := List.mem_map_of_mem _ hv0
      intro h0
      have hvv := valsQ_gcmRows_of_nodup fR v0.volumeId _ hnd hvid0
      rw [h0] at hvv
      exact (hR v0 hv0).2 (by simpa [valsQ] using hvv.symm)
    · obtain ⟨v0, hv0⟩ := List.exists_mem_of_ne_nil vols hvne
      have hvid0 : v0.volumeId ∈ vols.map (·.volumeId) := List.mem_map_of_mem _ hv0
      intro h0
      have hvv := valsQ_gcmRows_of_nodup fW v0.volumeId _ hnd hvid0
      rw [h0] at hvv
      exact (hW v0 hv0).2 (by simpa [valsQ] using hvv.symm)

/-- Witness for C10: one instance with datapoints, one singly-attached volume
with read and write datapoints; both scripts produce the same tables. -/
theorem claim_C10_witness :
    (∀ id ∈ [wInst2].map (·.instanceId), exIsOk (wFetchCpu id) = true)
    ∧ gcmRows wFetchCpu ([wInst2].map (·.instanceId)) ≠ []
    ∧ (∀ v ∈ [wVolA], exIsOk (wFetchBoth v.volumeId) = true
        ∧ okD (wFetchBoth v.volumeId) ≠ [])
    ∧ ([wVolA] : List VolumeRec) ≠ []
    ∧ (([wVolA].map (·.volumeId)).Nodup)
    ∧ (∀ v ∈ [wVolA], (∀ w ∈ v.attachments, w.volumeId = v.volumeId)
        ∧ v.attachments.length ≤ 1)
    ∧ (ec2_ebs.ec2_table wFetchCpu [wInst2]
        = .ok ((ec2ebs.process_ec2_metrics wFetchCpu [wInst2]).1.mrows)
      ∧ (ec2ebs.process_ec2_metrics wFetchCpu [wInst2]).1.isMerged = true
      ∧ ec2_ebs.ebs_df_v4 wFetchBoth wFetchBoth [wVolA]
        = (ec2ebs.process_ebs_metrics wFetchBoth wFetchBoth [wVolA]).1
      ∧ exIsOk (ec2ebs.process_ebs_metrics wFetchBoth wFetchBoth [wVolA]).1 = true) :=
  ⟨by decide, by decide, by decide, by decide, by decide, by decide,
    claim_C10_equivalence_amended [wInst2] [wVolA] wFetchCpu wFetchBoth wFetchBoth
      (by decide) (by decide) (by decide) (by decide) (by decide) (by decide)
      (by decide)⟩

unseal Rat.mul Rat.inv Rat.add Rat.sub in
/-- Counterexample to C10 as stated: for identical responses — the
multi-attach volume `v-1` with read and write period-totals `[3600]` — both
scripts succeed but produce different EBS report tables: `ec2ebs.py` reports
`InstanceId = i-first`, `ec2_ebs.py` reports `InstanceId = i-second`. -/
theorem claim_C10_counterexample :
    (exOkRows (ec2ebs.process_ebs_metrics wFetchBoth wFetchBoth [wVol1]).1).map
        (·.instanceId) = ["i-first"]
    ∧ (exOkRows (ec2_ebs.ebs_df_v4 wFetchBoth wFetchBoth [wVol1])).map
        (·.instanceId) = ["i-second"]
    ∧ exIsOk (ec2ebs.process_ebs_metrics wFetchBoth wFetchBoth [wVol1]).1 = true
    ∧ exIsOk (ec2_ebs.ebs_df_v4 wFetchBoth wFetchBoth [wVol1]) = true
    ∧ exOkRows (ec2ebs.process_ebs_metrics wFetchBoth wFetchBoth [wVol1]).1
      ≠ exOkRows (ec2_ebs.ebs_df_v4 wFetchBoth wFetchBoth [wVol1]) := by
  decide
